import Mathlib

/-!
Shallow embedding of `src/superfunc.py` (`sistema_recomendacao` and its inner
helper `similaridade_cosseno`), a user-based collaborative-filtering
recommender.

Modelling choices:
* A Python `dict` is an association list (`List (String × α)`) preserving
  insertion order; real dicts have unique keys, which lemmas assume only where
  they need it.
* Python `float` ratings are modelled as real numbers (`ℝ`); `np.linalg.norm`
  is `Real.sqrt` of the sum of squares, `np.dot` is the elementwise
  product-sum of two equal-length vectors.
* Python exceptions `TypeError`/`ValueError` become an error type `PyError`
  carrying the exception class (the "kind") and its message string; the
  function returns `Except PyError (List (String × ℝ))`.
* The `isinstance` checks of the source are vacuously true in a typed
  embedding (the arguments already have the right types) and are dropped; the
  value conditions on the same lines (`not avaliacoes`, `n_recomendacoes < 1`)
  are kept with the exception class the source raises.
* The local mutable loops of the source (building `similaridades`,
  `todos_itens`, `pontuacoes`) are staged as top-level definitions so theorems
  can speak about the intermediate data; each definition mirrors one loop.
-/

namespace TryingFunc

/-- A Python dict with string keys, in insertion order. -/
abbrev Dict (α : Type) : Type := List (String × α)

/-- The key view of a dict (`d.keys()`). -/
def keys {α : Type} (d : Dict α) : List String := d.map Prod.fst

/-- `d.get(k)`: the value stored at the first (only) occurrence of key `k`,
`none` when `k not in d`. -/
def lookup0 {α : Type} (d : Dict α) (k : String) : Option α :=
  match d with
  | [] => none
  | (k', v) :: rest => if k' = k then some v else lookup0 rest k

/-- `d[k]` where the caller has ensured `k in d`; a default is supplied so the
function is total (every use in the embedding is guarded, as in the source). -/
def get0 {α : Type} (d : Dict α) (k : String) (dflt : α) : α :=
  (lookup0 d k).getD dflt

/-- `np.dot` on two equal-length real vectors: the sum of elementwise
products. -/
def dotl (v w : List ℝ) : ℝ := ((v.zip w).map (fun p => p.1 * p.2)).sum

/-- A user's rating map: items to ratings. -/
abbrev UserRatings : Type := Dict ℝ

/-- The full rating matrix (`avaliacoes`). -/
abbrev Ratings : Type := Dict UserRatings

/-- `itens_comuns`: the items rated by both users (source line 45).  The
source materializes `set(user1) & set(user2)`; we keep `user1`'s order, a
consistent order as §4.1 requires. -/
def itens_comuns (user1 user2 : UserRatings) : List String :=
  (keys user1).filter (fun k => decide (k ∈ keys user2))

/-- `vetor1` (source line 50): the first user's ratings over the common
items. -/
def vetor1 (user1 user2 : UserRatings) : List ℝ :=
  (itens_comuns user1 user2).map (fun item => get0 user1 item 0)

/-- `vetor2` (source line 51): the second user's ratings over the common
items, indexed in the same order as `vetor1`. -/
def vetor2 (user1 user2 : UserRatings) : List ℝ :=
  (itens_comuns user1 user2).map (fun item => get0 user2 item 0)

/-- `np.linalg.norm`: the Euclidean norm of a real vector. -/
noncomputable def norma (v : List ℝ) : ℝ := Real.sqrt (dotl v v)

/-- `similaridade_cosseno` (source lines 34–59): cosine similarity of two
users restricted to their common items; `0.0` when there is no overlap or one
restricted vector has zero norm. -/
noncomputable def similaridade_cosseno (user1 user2 : UserRatings) : ℝ :=
  if (itens_comuns user1 user2).isEmpty then 0
  else if norma (vetor1 user1 user2) = 0 ∨ norma (vetor2 user1 user2) = 0 then 0
  else dotl (vetor1 user1 user2) (vetor2 user1 user2) /
    (norma (vetor1 user1 user2) * norma (vetor2 user1 user2))

/-- The Python exceptions the source raises: the class plus the message. -/
inductive PyError : Type where
  | typeError (msg : String)
  | valueError (msg : String)
deriving DecidableEq

/-- The exception class, the only thing a caller can discriminate without
parsing the message string. -/
def PyError.kind : PyError → Bool
  | .typeError _ => true
  | .valueError _ => false

/-- The message of the exception (`str(e)`). -/
def PyError.msg : PyError → String
  | .typeError m => m
  | .valueError m => m

/-- `similaridades` (source lines 63–68): for every user other than the
target, the cosine similarity with the target, kept only when strictly
positive. Insertion order follows the matrix. -/
noncomputable def similaridades (A : Ratings) (t : String) : Dict ℝ :=
  A.filterMap (fun p =>
    if p.1 ≠ t then
      if similaridade_cosseno (get0 A t []) p.2 > 0 then
        some (p.1, similaridade_cosseno (get0 A t []) p.2)
      else none
    else none)

/-- `itens_avaliados` (source line 74): the items the target has rated. -/
def itens_avaliados (A : Ratings) (t : String) : List String :=
  keys (get0 A t [])

/-- `todos_itens` (source lines 75–77): the union over EVERY user of the
matrix — not only similar users — of the items they rated.  The Python set is
modelled as the first-occurrence deduplication of the concatenated key lists. -/
def todos_itens (A : Ratings) : List String :=
  ((A.map (fun p => keys p.2)).flatten).dedup

/-- `itens_nao_avaliados` (source line 78): the candidate items. -/
def itens_nao_avaliados (A : Ratings) (t : String) : List String :=
  (todos_itens A).filter (fun i => decide (i ∉ itens_avaliados A t))

/-- The (similarity, rating) contributions to item `x`: one pair per user of
`similaridades` whose ratings contain `x` (the inner loop, lines 88–91). -/
noncomputable def contribuicoes (A : Ratings) (t : String) (item : String) :
    List (ℝ × ℝ) :=
  (similaridades A t).filterMap (fun q =>
    match lookup0 (get0 A q.1 []) item with
    | some r => some (q.2, r)
    | none => none)

/-- The predicted score of one candidate item (source lines 86–95):
similarity-weighted average of the similar users' ratings, `0.0` when no
similar user rated the item. -/
noncomputable def pontuacao (A : Ratings) (t : String) (item : String) : ℝ :=
  let soma_pontuacao := ((contribuicoes A t item).map (fun p => p.1 * p.2)).sum
  let soma_similaridade := ((contribuicoes A t item).map Prod.fst).sum
  if soma_similaridade > 0 then soma_pontuacao / soma_similaridade else 0

/-- `pontuacoes` (source lines 84–95), one (item, score) pair per candidate. -/
noncomputable def pontuacoes (A : Ratings) (t : String) : List (String × ℝ) :=
  (itens_nao_avaliados A t).map (fun item => (item, pontuacao A t item))

/-- `recomendacoes` (source line 98): the scored candidates, stably sorted by
descending score (`sorted(..., key=lambda x: x[1], reverse=True)`). -/
noncomputable def recomendacoes (A : Ratings) (t : String) : List (String × ℝ) :=
  (pontuacoes A t).mergeSort (fun a b => decide (b.2 ≤ a.2))

/- Exception messages of the source, transliterated to ASCII (accents and
quotes removed); only their identity and distinctness matter to the claims. -/

/-- Message of line 25. -/
def msgMatrizVazia : String := "O argumento avaliacoes deve ser um dicionario nao vazio."

/-- Message of line 29. -/
def msgNInvalido : String := "O argumento n_recomendacoes deve ser um inteiro positivo."

/-- Message of line 31. -/
def msgUsuarioNaoEncontrado (t : String) : String :=
  "Usuario " ++ t ++ " nao encontrado nas avaliacoes."

/-- Message of line 71. -/
def msgSemSimilares : String := "Nenhum usuario similar encontrado para gerar recomendacoes."

/-- Message of line 81. -/
def msgSemItens : String := "Nenhum item disponivel para recomendacao."

/-- Prefix added by the broad `except` clause at line 102. -/
def msgErroGerar (m : String) : String := "Erro ao gerar recomendacoes: " ++ m

/-- The `try` block of the source (lines 61–99): similarity table, candidate
selection, scoring, ranking, truncation to `min(n, len(recomendacoes))`. -/
noncomputable def corpo (A : Ratings) (t : String) (n : ℤ) :
    Except PyError (List (String × ℝ)) :=
  if (similaridades A t).isEmpty then .error (.valueError msgSemSimilares)
  else if (itens_nao_avaliados A t).isEmpty then .error (.valueError msgSemItens)
  else .ok ((recomendacoes A t).take (min n ((recomendacoes A t).length : ℤ)).toNat)

/-- `sistema_recomendacao` (source lines 5–102): eager validation (lines
24–31; the `isinstance` checks are vacuous on typed arguments, the value
checks on the same lines keep the exception class the source raises), then
the `try` block, whose every exception is re-raised by line 102 as a
`ValueError` with a generic prefix. -/
noncomputable def sistema_recomendacao (A : Ratings) (t : String) (n : ℤ) :
    Except PyError (List (String × ℝ)) :=
  if A.isEmpty then .error (.typeError msgMatrizVazia)
  else if n < 1 then .error (.valueError msgNInvalido)
  else if t ∉ keys A then .error (.valueError (msgUsuarioNaoEncontrado t))
  else
    match corpo A t n with
    | .ok l => .ok l
    | .error e => .error (.valueError (msgErroGerar e.msg))

/-- The CandidateSet as §3 of the spec words it (for comparison with the
code's `itens_nao_avaliados`): the union of the items rated by users present
in the SimilarityTable — similar users only — minus the items rated by the
target user. -/
noncomputable def candidatos_spec (A : Ratings) (t : String) : List String :=
  ((((similaridades A t).map (fun p => keys (get0 A p.1 []))).flatten).dedup).filter
    (fun i => decide (i ∉ itens_avaliados A t))

/- Concrete rating matrices used to instantiate the claims. -/

/-- Scenario A of the spec (§8; the `__main__` example of the source with the
item names the spec uses): four users, target `Alice`. -/
noncomputable def cenarioA : Ratings :=
  [("Alice", [("F1", 5), ("F2", 3), ("F3", 4)]),
   ("Bob", [("F1", 4), ("F2", 2), ("F4", 5)]),
   ("Charlie", [("F2", 4), ("F3", 3), ("F4", 4)]),
   ("Diana", [("F1", 3), ("F3", 5), ("F4", 2)])]

/-- Cosine similarity of Alice and Bob in Scenario A (common items F1, F2). -/
noncomputable def simAB : ℝ := 26 / (Real.sqrt 34 * Real.sqrt 20)

/-- Cosine similarity of Alice and Charlie in Scenario A (common items F2, F3). -/
noncomputable def simAC : ℝ := 24 / 25

/-- Cosine similarity of Alice and Diana in Scenario A (common items F1, F3). -/
noncomputable def simAD : ℝ := 35 / (Real.sqrt 41 * Real.sqrt 34)

/-- The predicted score of item F4 in Scenario A. -/
noncomputable def scoreA : ℝ :=
  (simAB * 5 + (simAC * 4 + simAD * 2)) / (simAB + (simAC + simAD))

/-- Two users with no common items: the no-similar-users failure. -/
noncomputable def exSemSim : Ratings := [("T", [("A", 1)]), ("V", [("B", 1)])]

/-- Two identical users: a similar user exists but no unrated item remains,
the no-candidate-items failure. -/
noncomputable def exSemItens : Ratings := [("T", [("A", 1)]), ("U", [("A", 1)])]

/-- A small success case: `U` is similar to the target `T` (similarity 1) and
has rated the unrated item `B`. -/
noncomputable def exSimples : Ratings := [("T", [("A", 1)]), ("U", [("A", 1), ("B", 2)])]

/-- A matrix with a similar user `U` and a dissimilar user `V` whose item `C`
is rated by nobody similar: `C` is still a candidate, scored `0.0`. -/
noncomputable def exMisto : Ratings :=
  [("T", [("A", 1)]), ("U", [("A", 1), ("B", 2)]), ("V", [("C", 3)])]

/-! Evaluation lemmas for the concrete matrices. -/

/-- The Scenario A similarity table, stated on the literal matrix so it can
rewrite after `cenarioA` has been unfolded. -/
theorem similaridades_cenarioA_lit :
    similaridades
      [("Alice", [("F1", 5), ("F2", 3), ("F3", 4)]),
       ("Bob", [("F1", 4), ("F2", 2), ("F4", 5)]),
       ("Charlie", [("F2", 4), ("F3", 3), ("F4", 4)]),
       ("Diana", [("F1", 3), ("F3", 5), ("F4", 2)])] "Alice" =
    [("Bob", simAB), ("Charlie", simAC), ("Diana", simAD)] := by
  have hB : (0:ℝ) < 26 / (Real.sqrt 34 * Real.sqrt 20) := by positivity
  have hD : (0:ℝ) < 35 / (Real.sqrt 41 * Real.sqrt 34) := by positivity
  simp [similaridades, similaridade_cosseno, itens_comuns, keys, get0, lookup0,
    dotl, vetor1, vetor2, norma, List.filterMap, simAB, simAC, simAD]
  norm_num [Real.sqrt_eq_zero', hB, hD]

/-- Scenario A evaluates to the single recommendation `(F4, scoreA)`. -/
theorem eval_cenarioA : sistema_recomendacao cenarioA "Alice" 2 = .ok [("F4", scoreA)] := by
  have hB : (0:ℝ) < simAB := by unfold simAB; positivity
  have hC : (0:ℝ) < simAC := by unfold simAC; positivity
  have hD : (0:ℝ) < simAD := by unfold simAD; positivity
  have hS : (0:ℝ) < simAB + (simAC + simAD) := by linarith
  simp [sistema_recomendacao, corpo, cenarioA, similaridades_cenarioA_lit, keys,
    itens_nao_avaliados, todos_itens, itens_avaliados, get0, lookup0,
    recomendacoes, pontuacoes, pontuacao, contribuicoes, List.filterMap,
    scoreA, hS, List.mergeSort]

/-- No pair of users shares an item: the call fails with the wrapped
no-similar-users `ValueError`. -/
theorem eval_exSemSim : sistema_recomendacao exSemSim "T" 3 =
    .error (.valueError (msgErroGerar msgSemSimilares)) := by
  simp [sistema_recomendacao, corpo, exSemSim, similaridades,
    similaridade_cosseno, itens_comuns, keys, get0, lookup0, List.filterMap,
    PyError.msg]

/-- The target has rated every item: the call fails with the wrapped
no-candidate-items `ValueError`. -/
theorem eval_exSemItens : sistema_recomendacao exSemItens "T" 3 =
    .error (.valueError (msgErroGerar msgSemItens)) := by
  simp [sistema_recomendacao, corpo, exSemItens, similaridades,
    similaridade_cosseno, itens_comuns, keys, get0, lookup0, dotl, vetor1,
    vetor2, norma, List.filterMap, PyError.msg, itens_nao_avaliados,
    todos_itens, itens_avaliados]

/-- An unknown target user fails with the unknown-user `ValueError` before
the pipeline starts. -/
theorem eval_usuarioDesconhecido : sistema_recomendacao exSemSim "X" 3 =
    .error (.valueError (msgUsuarioNaoEncontrado "X")) := by
  simp [sistema_recomendacao, exSemSim, keys]

/-- The simple success case with `n = 5`: one candidate, one recommendation. -/
theorem eval_exSimples : sistema_recomendacao exSimples "T" 5 = .ok [("B", 2)] := by
  simp [sistema_recomendacao, corpo, exSimples, similaridades,
    similaridade_cosseno, itens_comuns, keys, get0, lookup0, dotl, vetor1,
    vetor2, norma, List.filterMap, itens_nao_avaliados, todos_itens,
    itens_avaliados, recomendacoes, pontuacoes, pontuacao, contribuicoes,
    List.mergeSort]

/-- The mixed case: `B` is scored through `U`, `C` is rated only by the
dissimilar `V` and is scored `0.0`; both are returned. -/
theorem eval_exMisto : sistema_recomendacao exMisto "T" 3 = .ok [("B", 2), ("C", 0)] := by
  simp [sistema_recomendacao, corpo, exMisto, similaridades,
    similaridade_cosseno, itens_comuns, keys, get0, lookup0, dotl, vetor1,
    vetor2, norma, List.filterMap, itens_nao_avaliados, todos_itens,
    itens_avaliados, recomendacoes, pontuacoes, pontuacao, contribuicoes,
    List.mergeSort, List.merge]

/-- The similarity table of the mixed case: only `U`, with similarity `1`. -/
theorem similaridades_exMisto_lit :
    similaridades [("T", [("A", 1)]), ("U", [("A", 1), ("B", 2)]), ("V", [("C", 3)])] "T" =
    [("U", 1)] := by
  simp [similaridades, similaridade_cosseno, itens_comuns, keys, get0, lookup0,
    dotl, vetor1, vetor2, norma, List.filterMap]

/-! General lemmas about the pipeline. -/

theorem pos_of_mem_similaridades {A : Ratings} {t : String} {p : String × ℝ}
    (h : p ∈ similaridades A t) : 0 < p.2 := by
  unfold similaridades at h
  obtain ⟨a, -, ha⟩ := List.mem_filterMap.mp h
  by_cases h1 : a.1 ≠ t
  · rw [if_pos h1] at ha
    by_cases h2 : similaridade_cosseno (get0 A t []) a.2 > 0
    · rw [if_pos h2] at ha
      cases Option.some.inj ha
      exact h2
    · rw [if_neg h2] at ha
      exact Option.noConfusion ha
  · rw [if_neg h1] at ha
    exact Option.noConfusion ha

theorem sistema_ok_inv {A : Ratings} {t : String} {n : ℤ} {l : List (String × ℝ)}
    (h : sistema_recomendacao A t n = .ok l) :
    1 ≤ n ∧ t ∈ keys A ∧
    similaridades A t ≠ [] ∧ itens_nao_avaliados A t ≠ [] ∧
    l = (recomendacoes A t).take (min n ((recomendacoes A t).length : ℤ)).toNat := by
  unfold sistema_recomendacao at h
  split_ifs at h with h1 h2 h3
  unfold corpo at h
  split_ifs at h with h4 h5
  simp only [Except.ok.injEq] at h
  refine ⟨by omega, h3, ?_, ?_, h.symm⟩
  · intro he
    exact h4 (by simp [he])
  · intro he
    exact h5 (by simp [he])

theorem mem_pontuacoes_of_ok {A : Ratings} {t : String} {n : ℤ}
    {l : List (String × ℝ)} {p : String × ℝ}
    (h : sistema_recomendacao A t n = .ok l) (hp : p ∈ l) : p ∈ pontuacoes A t := by
  obtain ⟨-, -, -, -, rfl⟩ := sistema_ok_inv h
  have h1 : p ∈ recomendacoes A t := List.take_subset _ _ hp
  exact (List.mergeSort_perm (pontuacoes A t) _).subset h1

theorem mem_pontuacoes_elim {A : Ratings} {t : String} {p : String × ℝ}
    (h : p ∈ pontuacoes A t) :
    p.1 ∈ itens_nao_avaliados A t ∧ p.2 = pontuacao A t p.1 := by
  unfold pontuacoes at h
  obtain ⟨x, hx, rfl⟩ := List.mem_map.mp h
  exact ⟨hx, rfl⟩

theorem mem_itens_nao_avaliados {A : Ratings} {t : String} {x : String} :
    x ∈ itens_nao_avaliados A t ↔ x ∈ todos_itens A ∧ x ∉ itens_avaliados A t := by
  simp [itens_nao_avaliados]

theorem mem_todos_itens {A : Ratings} {x : String} :
    x ∈ todos_itens A ↔ ∃ p ∈ A, x ∈ keys p.2 := by
  simp only [todos_itens, List.mem_dedup, List.mem_flatten, List.mem_map]
  constructor
  · rintro ⟨-, ⟨q, hq, rfl⟩, hx⟩
    exact ⟨q, hq, hx⟩
  · rintro ⟨q, hq, hx⟩
    exact ⟨keys q.2, ⟨q, hq, rfl⟩, hx⟩

/-! The dot product: algebraic facts and the Cauchy-Schwarz inequality. -/

theorem dotl_nil (w : List ℝ) : dotl [] w = 0 := rfl

theorem dotl_nil2 (v : List ℝ) : dotl v [] = 0 := by cases v <;> rfl

theorem dotl_cons (a b : ℝ) (v w : List ℝ) :
    dotl (a :: v) (b :: w) = a * b + dotl v w := rfl

theorem dotl_self_nonneg (v : List ℝ) : 0 ≤ dotl v v := by
  induction v with
  | nil => exact le_refl 0
  | cons a v ih =>
    rw [dotl_cons]
    have := mul_self_nonneg a
    linarith

theorem dotl_self_pos {v : List ℝ} (h : ∃ x ∈ v, x ≠ 0) : 0 < dotl v v := by
  induction v with
  | nil => simp at h
  | cons a v ih =>
    rw [dotl_cons]
    obtain ⟨x, hx, hx0⟩ := h
    rcases List.mem_cons.mp hx with rfl | hxv
    · have h1 : 0 < x * x := mul_self_pos.mpr hx0
      have h2 := dotl_self_nonneg v
      linarith
    · have h1 := ih ⟨x, hxv, hx0⟩
      have h2 := mul_self_nonneg a
      linarith

theorem dotl_eq_sum (v w : List ℝ) :
    dotl v w = ∑ i ∈ Finset.range (min v.length w.length), v.getD i 0 * w.getD i 0 := by
  induction v generalizing w with
  | nil => simp [dotl_nil]
  | cons a v ih =>
    cases w with
    | nil => simp [dotl_nil2]
    | cons b w =>
      rw [dotl_cons, ih w]
      have hmin : min (a :: v).length (b :: w).length = min v.length w.length + 1 := by
        simp [List.length_cons, Nat.succ_min_succ]
      rw [hmin, Finset.sum_range_succ']
      simp only [List.getD_cons_succ, List.getD_cons_zero]
      ring

theorem dotl_sq_le (v w : List ℝ) : dotl v w ^ 2 ≤ dotl v v * dotl w w := by
  have hcs := Finset.sum_mul_sq_le_sq_mul_sq (Finset.range (min v.length w.length))
      (fun i => v.getD i 0) (fun i => w.getD i 0)
  have hv : ∑ i ∈ Finset.range (min v.length w.length), v.getD i 0 ^ 2 ≤ dotl v v := by
    rw [dotl_eq_sum v v, min_self]
    refine le_trans (le_of_eq (Finset.sum_congr rfl (fun i _ => pow_two _)))
      (Finset.sum_le_sum_of_subset_of_nonneg
        (Finset.range_subset.mpr (min_le_left _ _)) ?_)
    intro i _ _
    exact mul_self_nonneg _
  have hw : ∑ i ∈ Finset.range (min v.length w.length), w.getD i 0 ^ 2 ≤ dotl w w := by
    rw [dotl_eq_sum w w, min_self]
    refine le_trans (le_of_eq (Finset.sum_congr rfl (fun i _ => pow_two _)))
      (Finset.sum_le_sum_of_subset_of_nonneg
        (Finset.range_subset.mpr (min_le_right _ _)) ?_)
    intro i _ _
    exact mul_self_nonneg _
  calc dotl v w ^ 2
      = (∑ i ∈ Finset.range (min v.length w.length), v.getD i 0 * w.getD i 0) ^ 2 := by
        rw [dotl_eq_sum]
    _ ≤ (∑ i ∈ Finset.range (min v.length w.length), v.getD i 0 ^ 2) *
        ∑ i ∈ Finset.range (min v.length w.length), w.getD i 0 ^ 2 := hcs
    _ ≤ dotl v v * dotl w w := by
        refine mul_le_mul hv hw (Finset.sum_nonneg ?_) (dotl_self_nonneg v)
        intro i _
        exact sq_nonneg _

/-! Bounds for the cosine similarity. -/

theorem norma_mul (v w : List ℝ) :
    norma v * norma w = Real.sqrt (dotl v v * dotl w w) := by
  rw [norma, norma, ← Real.sqrt_mul (dotl_self_nonneg v)]

theorem abs_dotl_le (v w : List ℝ) : |dotl v w| ≤ norma v * norma w := by
  rw [norma_mul]
  calc |dotl v w| = Real.sqrt (dotl v w ^ 2) := (Real.sqrt_sq_eq_abs _).symm
    _ ≤ Real.sqrt (dotl v v * dotl w w) := Real.sqrt_le_sqrt (dotl_sq_le v w)

theorem sim_bounds (u1 u2 : UserRatings) :
    -1 ≤ similaridade_cosseno u1 u2 ∧ similaridade_cosseno u1 u2 ≤ 1 := by
  unfold similaridade_cosseno
  by_cases hc : (itens_comuns u1 u2).isEmpty
  · rw [if_pos hc]
    norm_num
  · rw [if_neg hc]
    by_cases hn : norma (vetor1 u1 u2) = 0 ∨ norma (vetor2 u1 u2) = 0
    · rw [if_pos hn]
      norm_num
    · rw [if_neg hn]
      push_neg at hn
      obtain ⟨hn1, hn2⟩ := hn
      have h1 : 0 < norma (vetor1 u1 u2) :=
        lt_of_le_of_ne (Real.sqrt_nonneg _) (Ne.symm hn1)
      have h2 : 0 < norma (vetor2 u1 u2) :=
        lt_of_le_of_ne (Real.sqrt_nonneg _) (Ne.symm hn2)
      have hdiv : |dotl (vetor1 u1 u2) (vetor2 u1 u2) /
          (norma (vetor1 u1 u2) * norma (vetor2 u1 u2))| ≤ 1 := by
        rw [abs_div, abs_of_pos (mul_pos h1 h2)]
        exact (div_le_one (mul_pos h1 h2)).mpr (abs_dotl_le _ _)
      exact abs_le.mp hdiv

theorem sim_self (u : UserRatings) (h : ∃ x ∈ vetor1 u u, x ≠ 0) :
    similaridade_cosseno u u = 1 := by
  have hvv : vetor2 u u = vetor1 u u := rfl
  have hpos : 0 < dotl (vetor1 u u) (vetor1 u u) := dotl_self_pos h
  have hnorm : 0 < norma (vetor1 u u) := Real.sqrt_pos.mpr hpos
  have hne : ¬((itens_comuns u u).isEmpty = true) := by
    intro hc
    obtain ⟨x, hx, -⟩ := h
    rw [List.isEmpty_iff] at hc
    rw [vetor1, hc] at hx
    simp at hx
  unfold similaridade_cosseno
  rw [hvv, if_neg hne, if_neg (by push_neg; exact ⟨ne_of_gt hnorm, ne_of_gt hnorm⟩)]
  rw [norma, Real.mul_self_sqrt (dotl_self_nonneg _)]
  exact div_self (ne_of_gt hpos)

/-! Weighted averages for the score aggregator. -/

theorem sum_map_mul_const (c : List (ℝ × ℝ)) (r : ℝ) :
    (c.map (fun p => p.1 * r)).sum = (c.map Prod.fst).sum * r := by
  induction c with
  | nil => simp
  | cons p c ih => simp [ih, add_mul]

theorem soma_similaridade_pos {c : List (ℝ × ℝ)}
    (hw : ∀ p ∈ c, 0 < p.1) (hne : c ≠ []) : 0 < (c.map Prod.fst).sum := by
  refine List.sum_pos _ ?_ ?_
  · intro x hx
    obtain ⟨p, hp, rfl⟩ := List.mem_map.mp hx
    exact hw p hp
  · simpa using hne

theorem media_ponderada (c : List (ℝ × ℝ)) (lo hi : ℝ)
    (hw : ∀ p ∈ c, 0 < p.1) (hne : c ≠ [])
    (hlo : ∀ p ∈ c, lo ≤ p.2) (hhi : ∀ p ∈ c, p.2 ≤ hi) :
    lo ≤ (c.map (fun p => p.1 * p.2)).sum / (c.map Prod.fst).sum ∧
    (c.map (fun p => p.1 * p.2)).sum / (c.map Prod.fst).sum ≤ hi := by
  have hs : 0 < (c.map Prod.fst).sum := soma_similaridade_pos hw hne
  constructor
  · rw [le_div_iff₀ hs]
    calc lo * (c.map Prod.fst).sum = (c.map Prod.fst).sum * lo := mul_comm _ _
      _ = (c.map (fun p => p.1 * lo)).sum := (sum_map_mul_const c lo).symm
      _ ≤ (c.map (fun p => p.1 * p.2)).sum :=
        List.sum_le_sum (fun p hp => mul_le_mul_of_nonneg_left (hlo p hp) (hw p hp).le)
  · rw [div_le_iff₀ hs]
    calc (c.map (fun p => p.1 * p.2)).sum
        ≤ (c.map (fun p => p.1 * hi)).sum :=
        List.sum_le_sum (fun p hp => mul_le_mul_of_nonneg_left (hhi p hp) (hw p hp).le)
      _ = (c.map Prod.fst).sum * hi := sum_map_mul_const c hi
      _ = hi * (c.map Prod.fst).sum := mul_comm _ _

theorem contribuicoes_weight_pos {A : Ratings} {t : String} {x : String}
    {p : ℝ × ℝ} (hp : p ∈ contribuicoes A t x) : 0 < p.1 := by
  unfold contribuicoes at hp
  obtain ⟨q, hq, hqc⟩ := List.mem_filterMap.mp hp
  cases hl : lookup0 (get0 A q.1 []) x with
  | none =>
    rw [hl] at hqc
    exact Option.noConfusion hqc
  | some r =>
    rw [hl] at hqc
    cases Option.some.inj hqc
    exact pos_of_mem_similaridades hq

/-! The claims. -/

/-- C1: the claim says every failure outcome carries a distinct error kind and
that in particular no-similar-users and no-candidate-items are not collapsed
into one generic error value.  This is false: both are re-raised by the broad
except clause as plain `ValueError`s (the same kind), distinguishable only by
message text. -/
theorem C1_counterexample :
    sistema_recomendacao exSemSim "T" 3 =
      .error (.valueError (msgErroGerar msgSemSimilares)) ∧
    sistema_recomendacao exSemItens "T" 3 =
      .error (.valueError (msgErroGerar msgSemItens)) ∧
    (PyError.valueError (msgErroGerar msgSemSimilares)).kind =
      (PyError.valueError (msgErroGerar msgSemItens)).kind :=
  ⟨eval_exSemSim, eval_exSemItens, rfl⟩

/-- C1 (amended): the five failure outcomes surface through only two
exception kinds — `TypeError` for the empty matrix (shared with the
invalid-argument-type checks) and `ValueError` for unknown-user,
no-similar-users and no-candidate-items; the last two are wrapped in a
generic prefixed `ValueError` and differ only in their message strings. -/
theorem C1_amended :
    sistema_recomendacao ([] : Ratings) "T" 3 = .error (.typeError msgMatrizVazia) ∧
    sistema_recomendacao exSemSim "X" 3 =
      .error (.valueError (msgUsuarioNaoEncontrado "X")) ∧
    sistema_recomendacao exSemSim "T" 3 =
      .error (.valueError (msgErroGerar msgSemSimilares)) ∧
    sistema_recomendacao exSemItens "T" 3 =
      .error (.valueError (msgErroGerar msgSemItens)) ∧
    msgErroGerar msgSemSimilares ≠ msgErroGerar msgSemItens := by
  refine ⟨by simp [sistema_recomendacao], eval_usuarioDesconhecido, eval_exSemSim,
    eval_exSemItens, ?_⟩
  simp [msgErroGerar, msgSemSimilares, msgSemItens]

/-- C2: the claim (and the function's own docstring, which lists empty
ratings under `ValueError`) says the empty mapping fails with an
InvalidArgumentValue-kind error; the code raises `TypeError` instead (line
24–25 merges the emptiness check into the type check).  The failure does
happen before any similarity computation. -/
theorem C2_empty_raises_typeError :
    sistema_recomendacao ([] : Ratings) "Alice" 2 =
      .error (.typeError msgMatrizVazia) ∧
    (PyError.typeError msgMatrizVazia).kind ≠
      (PyError.valueError msgMatrizVazia).kind := by
  exact ⟨by simp [sistema_recomendacao], by simp [PyError.kind]⟩

/-- C3: the claim says Scenario A returns a 2-element list; in fact the only
candidate item is F4, so the returned list has length 1, not 2. -/
theorem C3_counterexample :
    Except.map List.length (sistema_recomendacao cenarioA "Alice" 2) ≠ .ok 2 := by
  rw [eval_cenarioA]
  simp [Except.map]

/-- C3 (amended): Scenario A succeeds and returns the one-element list
`[(F4, s)]` — F4 is the only item unrated by Alice — trivially ordered by
descending score. -/
theorem C3_amended :
    ∃ s : ℝ, sistema_recomendacao cenarioA "Alice" 2 = .ok [("F4", s)] :=
  ⟨scoreA, eval_cenarioA⟩

/-- C4: the claim says the candidate set is the union of items rated by the
SIMILAR users only, minus the target's items.  The code builds the universe
from every user of the matrix (source line 76), so item C — rated only by the
dissimilar user V — is a candidate of the code but not of the claim's set. -/
theorem C4_counterexample :
    similaridades exMisto "T" ≠ [] ∧
    "C" ∈ itens_nao_avaliados exMisto "T" ∧
    "C" ∉ candidatos_spec exMisto "T" := by
  have hs : similaridades exMisto "T" = [("U", 1)] := by
    unfold exMisto
    exact similaridades_exMisto_lit
  refine ⟨by rw [hs]; simp, ?_, ?_⟩
  · simp [itens_nao_avaliados, todos_itens, itens_avaliados, exMisto, keys,
      get0, lookup0]
  · unfold candidatos_spec
    rw [hs]
    simp [keys, get0, lookup0, exMisto, itens_avaliados]

/-- C4 (amended): whenever the candidate-selection stage is reached, the
candidate set equals the union of the items rated by ANY user of the matrix,
minus the items rated by the target user. -/
theorem C4_amended (A : Ratings) (t : String) (x : String)
    (h : similaridades A t ≠ []) :
    x ∈ itens_nao_avaliados A t ↔
      (∃ p ∈ A, x ∈ keys p.2) ∧ x ∉ itens_avaliados A t := by
  rw [mem_itens_nao_avaliados, mem_todos_itens]

/-- Witness for C4 (amended) at the mixed example, item C. -/
theorem C4_amended_witness :
    "C" ∈ itens_nao_avaliados exMisto "T" ↔
      (∃ p ∈ exMisto, "C" ∈ keys p.2) ∧ "C" ∉ itens_avaliados exMisto "T" :=
  C4_amended exMisto "T" "C" (by
    have hs : similaridades exMisto "T" = [("U", 1)] := by
      unfold exMisto
      exact similaridades_exMisto_lit
    rw [hs]
    simp)


/-- The similarity table of the simple success case. -/
theorem similaridades_exSimples_lit :
    similaridades [("T", [("A", 1)]), ("U", [("A", 1), ("B", 2)])] "T" =
    [("U", 1)] := by
  simp [similaridades, similaridade_cosseno, itens_comuns, keys, get0, lookup0,
    dotl, vetor1, vetor2, norma, List.filterMap]

/-- The contributions to item B in the simple success case. -/
theorem contribuicoes_exSimples :
    contribuicoes exSimples "T" "B" = [(1, 2)] := by
  have hs : similaridades exSimples "T" = [("U", 1)] := by
    unfold exSimples
    exact similaridades_exSimples_lit
  unfold contribuicoes
  rw [hs]
  simp [get0, lookup0, exSimples, List.filterMap]

/-- The contributions to item C in the mixed example: none, the only rater of
C is the dissimilar user V. -/
theorem contribuicoes_exMisto_C :
    contribuicoes exMisto "T" "C" = [] := by
  have hs : similaridades exMisto "T" = [("U", 1)] := by
    unfold exMisto
    exact similaridades_exMisto_lit
  unfold contribuicoes
  rw [hs]
  simp [get0, lookup0, exMisto, List.filterMap]

/-- C5: on every successful call the length of the returned list equals
min(topN, number of candidate items); in particular a topN larger than the
candidate count returns one pair per candidate. -/
theorem C5_length (A : Ratings) (t : String) (n : ℤ) (l : List (String × ℝ))
    (hok : sistema_recomendacao A t n = .ok l) :
    l.length = min n.toNat (itens_nao_avaliados A t).length := by
  obtain ⟨hn, -, -, -, rfl⟩ := sistema_ok_inv hok
  rw [List.length_take]
  have hlen : (recomendacoes A t).length = (itens_nao_avaliados A t).length := by
    rw [recomendacoes, List.length_mergeSort, pontuacoes, List.length_map]
  rw [hlen]
  omega

/-- Witness for C5 at the simple success case with topN = 5 > 1 candidate. -/
theorem C5_length_witness :
    [(("B" : String), (2 : ℝ))].length =
      min (5 : ℤ).toNat (itens_nao_avaliados exSimples "T").length :=
  C5_length exSimples "T" 5 [("B", 2)] eval_exSimples

/-- C6: on every successful call, each entry's predicted score is at least
that of the following entry (the list is sorted by descending score). -/
theorem C6_ordering (A : Ratings) (t : String) (n : ℤ) (l : List (String × ℝ))
    (hok : sistema_recomendacao A t n = .ok l) :
    List.Chain' (fun p q : String × ℝ => q.2 ≤ p.2) l := by
  obtain ⟨-, -, -, -, rfl⟩ := sistema_ok_inv hok
  have htrans : ∀ a b c : String × ℝ, decide (b.2 ≤ a.2) = true →
      decide (c.2 ≤ b.2) = true → decide (c.2 ≤ a.2) = true := by
    intro a b c hab hbc
    rw [decide_eq_true_eq] at *
    exact le_trans hbc hab
  have htotal : ∀ a b : String × ℝ,
      (decide (b.2 ≤ a.2) || decide (a.2 ≤ b.2)) = true := by
    intro a b
    rcases le_total b.2 a.2 with h | h <;> simp [h]
  have hp := @List.sorted_mergeSort (String × ℝ)
    (fun a b => decide (b.2 ≤ a.2)) htrans htotal (pontuacoes A t)
  have hs : List.Pairwise (fun p q : String × ℝ => q.2 ≤ p.2) (recomendacoes A t) :=
    (hp.imp (fun h => of_decide_eq_true h))
  exact (List.Pairwise.sublist (List.take_sublist _ _) hs).chain'

/-- Witness for C6 at the mixed example: the returned list is descending. -/
theorem C6_ordering_witness :
    List.Chain' (fun p q : String × ℝ => q.2 ≤ p.2) [("B", 2), ("C", 0)] :=
  C6_ordering exMisto "T" 3 [("B", 2), ("C", 0)] eval_exMisto

/-- C7: on every successful call, no returned item is a key of the target
user's rating mapping. -/
theorem C7_exclusao (A : Ratings) (t : String) (n : ℤ) (l : List (String × ℝ))
    (x : String) (s : ℝ)
    (hok : sistema_recomendacao A t n = .ok l) (hm : (x, s) ∈ l) :
    x ∉ itens_avaliados A t := by
  have hp := mem_pontuacoes_of_ok hok hm
  exact (mem_itens_nao_avaliados.mp (mem_pontuacoes_elim hp).1).2

/-- Witness for C7 at the simple success case. -/
theorem C7_exclusao_witness : "B" ∉ itens_avaliados exSimples "T" :=
  C7_exclusao exSimples "T" 5 [("B", 2)] "B" 2 eval_exSimples (by simp)


/-- C8: cosine similarity always lies in [-1, 1]; it is exactly 0 when the
two mappings share no items or when either restricted vector has zero norm
(no division by zero); and a mapping whose restricted vector is nonzero has
similarity 1 with itself. -/
theorem C8_similaridade (u1 u2 u : UserRatings) :
    (-1 ≤ similaridade_cosseno u1 u2 ∧ similaridade_cosseno u1 u2 ≤ 1) ∧
    (itens_comuns u1 u2 = [] → similaridade_cosseno u1 u2 = 0) ∧
    (norma (vetor1 u1 u2) = 0 ∨ norma (vetor2 u1 u2) = 0 →
      similaridade_cosseno u1 u2 = 0) ∧
    ((∃ x ∈ vetor1 u u, x ≠ 0) → similaridade_cosseno u u = 1) := by
  refine ⟨sim_bounds u1 u2, ?_, ?_, sim_self u⟩
  · intro h
    unfold similaridade_cosseno
    rw [if_pos (by simp [h])]
  · intro h
    unfold similaridade_cosseno
    by_cases hc : (itens_comuns u1 u2).isEmpty
    · rw [if_pos hc]
    · rw [if_neg hc, if_pos h]

/-- Witness for C8: a user with the single nonzero rating 2 has
self-similarity exactly 1. -/
theorem C8_similaridade_witness :
    similaridade_cosseno [("A", (2 : ℝ))] [("A", 2)] = 1 :=
  (C8_similaridade [("A", 2)] [("A", 2)] [("A", 2)]).2.2.2
    ⟨2, by simp [vetor1, itens_comuns, keys, get0, lookup0], by norm_num⟩

/-- C9: on every successful call, the predicted score of a returned item that
received at least one contribution is a weighted average with positive
weights of the similar users' ratings of it, hence lies between any lower and
upper bound of those ratings — in particular between their minimum and
maximum. -/
theorem C9_media (A : Ratings) (t : String) (n : ℤ) (l : List (String × ℝ))
    (x : String) (p lo hi : ℝ)
    (hok : sistema_recomendacao A t n = .ok l) (hmem : (x, p) ∈ l)
    (hne : contribuicoes A t x ≠ [])
    (hlo : ∀ c ∈ contribuicoes A t x, lo ≤ c.2)
    (hhi : ∀ c ∈ contribuicoes A t x, c.2 ≤ hi) :
    lo ≤ p ∧ p ≤ hi := by
  have hp := mem_pontuacoes_of_ok hok hmem
  have hpe : p = pontuacao A t x := (mem_pontuacoes_elim hp).2
  have hw : ∀ c ∈ contribuicoes A t x, 0 < c.1 :=
    fun c hc => contribuicoes_weight_pos hc
  have hs : 0 < ((contribuicoes A t x).map Prod.fst).sum :=
    soma_similaridade_pos hw hne
  have hscore : pontuacao A t x =
      ((contribuicoes A t x).map (fun c => c.1 * c.2)).sum /
        ((contribuicoes A t x).map Prod.fst).sum := by
    unfold pontuacao
    rw [if_pos hs]
  rw [hpe, hscore]
  exact media_ponderada (contribuicoes A t x) lo hi hw hne hlo hhi

/-- Witness for C9 at the simple success case: B's score 2 is bounded by the
single contributing rating 2. -/
theorem C9_media_witness : (2 : ℝ) ≤ 2 ∧ (2 : ℝ) ≤ 2 :=
  C9_media exSimples "T" 5 [("B", 2)] "B" 2 2 2 eval_exSimples (by simp)
    (by rw [contribuicoes_exSimples]; simp)
    (by rw [contribuicoes_exSimples]; simp)
    (by rw [contribuicoes_exSimples]; simp)

/-- C10: on every successful call, an unrated item that received no
contribution (every one of its raters was excluded from the similarity
table) is still a candidate and is scored exactly 0.0. -/
theorem C10_sem_contribuicao (A : Ratings) (t : String) (n : ℤ)
    (l : List (String × ℝ)) (x : String)
    (hok : sistema_recomendacao A t n = .ok l)
    (hx : x ∈ todos_itens A) (hnt : x ∉ itens_avaliados A t)
    (hnone : contribuicoes A t x = []) :
    x ∈ itens_nao_avaliados A t ∧ (x, (0 : ℝ)) ∈ pontuacoes A t := by
  have hcand : x ∈ itens_nao_avaliados A t := mem_itens_nao_avaliados.mpr ⟨hx, hnt⟩
  refine ⟨hcand, ?_⟩
  have hscore : pontuacao A t x = 0 := by
    unfold pontuacao
    rw [hnone]
    simp
  exact List.mem_map.mpr ⟨x, hcand, by rw [hscore]⟩

/-- Witness for C10 at the mixed example: item C, rated only by the
dissimilar user V, is a candidate scored 0.0 — and it does appear in the
returned list. -/
theorem C10_sem_contribuicao_witness :
    ("C" ∈ itens_nao_avaliados exMisto "T" ∧
      ("C", (0 : ℝ)) ∈ pontuacoes exMisto "T") ∧
    ("C", (0 : ℝ)) ∈ [(("B" : String), (2 : ℝ)), ("C", 0)] :=
  ⟨C10_sem_contribuicao exMisto "T" 3 [("B", 2), ("C", 0)] "C" eval_exMisto
      (by simp [todos_itens, exMisto, keys])
      (by simp [itens_avaliados, exMisto, keys, get0, lookup0])
      contribuicoes_exMisto_C,
    by simp⟩

end TryingFunc
